import Mathlib

/-!
Verification of the TikTok DM sender's anti-ban logic
(`backend/platforms/tiktok/tiktok_dm_sender_optimized.py` and
`backend/platforms/tiktok/tiktok_dm_sender.py`).

We shallowly embed:
  * the rate limiter (`_load_rate_limits`, `_save_rate_limits`,
    `_check_rate_limits`, `_record_message_sent`, `_enter_cooldown`,
    `_is_within_work_hours`);
  * the selector-fallback action loop used in `send_dm`
    (try each selector, swallow per-selector failures, click the first
    visible match, stop);
  * the post-send verification tail of `send_dm` (input-cleared check,
    message-text check, assume-success fallback).

Time is modelled as seconds on `Int`.  The Python code stores timestamps
as ISO-8601 strings and compares them lexicographically; for a fixed
format that ordering coincides with chronological ordering, so `Int`
timestamps with `<` are a faithful model.  The local hour of day used by
`_is_within_work_hours` is derived from the same clock value:
`currentHour now = now % 86400 / 3600` (the epoch is taken at a local
midnight).  Persistence (`tiktok_rate_limit.json`) is modelled as an
explicit `disk : Option RateLimits` component of the sender state;
`none` means the file does not exist.
-/

/-- `MAX_DM_PER_HOUR = 3` in the source. -/
def MAX_DM_PER_HOUR : Nat := 3

/-- `MAX_DM_PER_DAY = 20` in the source. -/
def MAX_DM_PER_DAY : Nat := 20

/-- `REST_AFTER_N_MESSAGES = 3` in the source. -/
def REST_AFTER_N_MESSAGES : Nat := 3

/-- `COOLDOWN_HOURS = 24` in the source. -/
def COOLDOWN_HOURS : Int := 24

/-- `WORK_HOURS = (8, 22)` in the source: start of the allowed window. -/
def WORK_HOURS_START : Int := 8

/-- `WORK_HOURS = (8, 22)` in the source: end of the allowed window. -/
def WORK_HOURS_END : Int := 22

/-- One hour in seconds (`timedelta(hours=1)`). -/
def HOUR_SECONDS : Int := 3600

/-- One day in seconds (`timedelta(days=1)`). -/
def DAY_SECONDS : Int := 86400

/-- The JSON record stored in `tiktok_rate_limit.json`: keys
`hourly_messages`, `daily_messages`, `last_cooldown`, `total_sent`. -/
structure RateLimits where
  hourly_messages : List Int
  daily_messages : List Int
  last_cooldown : Option Int
  total_sent : Nat
deriving Repr, DecidableEq

/-- The empty record returned by `_load_rate_limits` when the file is
missing or unreadable. -/
def defaultRateLimits : RateLimits :=
  { hourly_messages := [], daily_messages := [], last_cooldown := none, total_sent := 0 }

/-- In-memory state of a `TikTokDMSender` instance relevant to rate
limiting: `self.rate_limits`, `self.messages_sent_this_session`, and the
contents of the persisted file (`none` = file absent). -/
structure SenderState where
  rate_limits : RateLimits
  messages_sent_this_session : Nat
  disk : Option RateLimits
deriving Repr, DecidableEq

/-- `_load_rate_limits`: returns the file contents, or the empty record
when the file is absent (or unparsable). -/
def load_rate_limits : Option RateLimits → RateLimits
  | none => defaultRateLimits
  | some r => r

/-- `__init__`: `self.rate_limits = self._load_rate_limits()`,
`self.messages_sent_this_session = 0`.  The disk is untouched. -/
def initSender (disk : Option RateLimits) : SenderState :=
  { rate_limits := load_rate_limits disk
    messages_sent_this_session := 0
    disk := disk }

/-- `_save_rate_limits`: `json.dump(self.rate_limits, f)` — the file now
holds exactly the in-memory record. -/
def save_rate_limits (s : SenderState) : SenderState :=
  { s with disk := some s.rate_limits }

/-- `datetime.now().hour`, derived from the clock value in seconds. -/
def currentHour (now : Int) : Int := now % DAY_SECONDS / HOUR_SECONDS

/-- `_is_within_work_hours`: `WORK_HOURS[0] <= current_hour < WORK_HOURS[1]`. -/
def is_within_work_hours (now : Int) : Bool :=
  decide (WORK_HOURS_START ≤ currentHour now) && decide (currentHour now < WORK_HOURS_END)

/-- The deny/allow reason returned by `_check_rate_limits` (the Python
code returns a formatted string; we keep the branch identity and the
data interpolated into it). -/
inductive Reason where
  | cooldown (remainingSeconds : Int)
  | outsideWorkHours
  | hourlyLimit
  | dailyLimit
  | resting (restMinutes : Nat)
  | ok
deriving Repr, DecidableEq

/-- Result of one `_check_rate_limits` call: the (possibly pruned)
sender state together with the returned `(可以发送, 原因)` pair. -/
structure CheckResult where
  state : SenderState
  allowed : Bool
  reason : Reason
deriving Repr, DecidableEq

/-- Steps 2–6 of `_check_rate_limits` (everything after the cooldown
check): work-hours gate, lazy pruning of both timestamp lists, hourly
cap, daily cap, batch-rest check.  `restRand` is the value
`random.randint(*REST_DURATION_MINUTES)` interpolated into the resting
message. -/
def check_rate_limits_main (s : SenderState) (now : Int) (restRand : Nat) : CheckResult :=
  if !is_within_work_hours now then
    { state := s, allowed := false, reason := Reason.outsideWorkHours }
  else
    let hourly := s.rate_limits.hourly_messages.filter (fun ts => now - HOUR_SECONDS < ts)
    let daily := s.rate_limits.daily_messages.filter (fun ts => now - DAY_SECONDS < ts)
    let s' : SenderState :=
      { s with rate_limits :=
        { s.rate_limits with hourly_messages := hourly, daily_messages := daily } }
    if MAX_DM_PER_HOUR ≤ hourly.length then
      { state := s', allowed := false, reason := Reason.hourlyLimit }
    else if MAX_DM_PER_DAY ≤ daily.length then
      { state := s', allowed := false, reason := Reason.dailyLimit }
    else if 0 < s.messages_sent_this_session ∧
        s.messages_sent_this_session % REST_AFTER_N_MESSAGES = 0 then
      { state := s', allowed := false, reason := Reason.resting restRand }
    else
      { state := s', allowed := true, reason := Reason.ok }

/-- `_check_rate_limits`: step 1 (cooldown) first — if
`last_cooldown + 24h` is still in the future the call returns
immediately (before any pruning) with the remaining time; otherwise it
falls through to `check_rate_limits_main`. -/
def check_rate_limits (s : SenderState) (now : Int) (restRand : Nat) : CheckResult :=
  match s.rate_limits.last_cooldown with
  | some lc =>
    if now < lc + COOLDOWN_HOURS * HOUR_SECONDS then
      { state := s, allowed := false
        reason := Reason.cooldown (lc + COOLDOWN_HOURS * HOUR_SECONDS - now) }
    else
      check_rate_limits_main s now restRand
  | none => check_rate_limits_main s now restRand

/-- `_record_message_sent`: append `now` to both lists, bump
`total_sent` and `messages_sent_this_session`, then
`_save_rate_limits()` before returning. -/
def record_message_sent (s : SenderState) (now : Int) : SenderState :=
  save_rate_limits
    { s with
      rate_limits :=
        { s.rate_limits with
          hourly_messages := s.rate_limits.hourly_messages ++ [now]
          daily_messages := s.rate_limits.daily_messages ++ [now]
          total_sent := s.rate_limits.total_sent + 1 }
      messages_sent_this_session := s.messages_sent_this_session + 1 }

/-- `_enter_cooldown`: set `last_cooldown = now` and save. -/
def enter_cooldown (s : SenderState) (now : Int) : SenderState :=
  save_rate_limits
    { s with rate_limits := { s.rate_limits with last_cooldown := some now } }

/-- Whether the cooldown branch of `_check_rate_limits` would fire at
time `now`. -/
def cooldown_active (s : SenderState) (now : Int) : Bool :=
  match s.rate_limits.last_cooldown with
  | some lc => decide (now < lc + COOLDOWN_HOURS * HOUR_SECONDS)
  | none => false

/-- Number of recorded timestamps within the trailing hour (the length
of the pruned hourly list). -/
def hour_count (rl : RateLimits) (now : Int) : Nat :=
  (rl.hourly_messages.filter (fun ts => now - HOUR_SECONDS < ts)).length

/-- Number of recorded timestamps within the trailing day (the length
of the pruned daily list). -/
def day_count (rl : RateLimits) (now : Int) : Nat :=
  (rl.daily_messages.filter (fun ts => now - DAY_SECONDS < ts)).length

/-- Whether the batch-rest branch of `_check_rate_limits` fires for a
given session counter. -/
def rest_due (session : Nat) : Prop :=
  0 < session ∧ session % REST_AFTER_N_MESSAGES = 0

instance (session : Nat) : Decidable (rest_due session) := by
  unfold rest_due
  infer_instance

/-- Outcome of one `page.wait_for_selector(selector, timeout=...)`
attempt inside a candidate loop of `send_dm`:
  * `thrown` — the call raised (timeout or any engine error), caught by
    the per-selector `except: continue`;
  * `nullHandle` — a falsy handle, so `if btn and btn.is_visible()`
    fails;
  * `found v` — a handle whose `is_visible()` returns `v`. -/
inductive Resolve where
  | thrown
  | nullHandle
  | found (visible : Bool)
deriving Repr, DecidableEq

/-- Observable outcome of one candidate loop of `send_dm` (e.g. the
message-button loop, lines 365–375 of the optimized sender): which
candidates had resolution attempted, on which candidates the DOM action
(`page.evaluate('(el) => el.click()', btn)`) was performed, and the
index of the candidate the loop broke on, if any. -/
structure ExecResult (σ : Type) where
  attempted : List σ
  actions : List σ
  matched : Option Nat
deriving Repr, DecidableEq

/-- Whether the loop found a working candidate (`message_opened` /
`sent_success` style flag in the source). -/
def ExecResult.succeeded (r : ExecResult σ) : Bool := r.matched.isSome

/-- The candidate loop of `send_dm`: for each selector in order, try to
resolve it; a raised error is swallowed (`except: continue`), a falsy or
invisible handle is skipped, and the first visible match is clicked
exactly once, after which the loop breaks. -/
def execute (resolve : σ → Resolve) : List σ → ExecResult σ
  | [] => { attempted := [], actions := [], matched := none }
  | c :: rest =>
    match resolve c with
    | Resolve.found true => { attempted := [c], actions := [c], matched := some 0 }
    | _ =>
      let r := execute resolve rest
      { attempted := c :: r.attempted
        actions := r.actions
        matched := r.matched.map (· + 1) }

/-- The `try: ... except Exception as e: ... return False` boundary
wrapping the whole body of `send_dm` (lines 305 and 569–574): a body
that raises is converted to the structured failure `False`; a body that
returns, returns its own Boolean. -/
def send_dm_guard (body : Except String Bool) : Bool :=
  match body with
  | Except.ok b => b
  | Except.error _ => false

/-- The branch of the post-send verification tail of `send_dm` that
fired (lines 509–564 of the optimized sender). -/
inductive SendVerdict where
  | verifiedInputCleared
  | verifiedTextFound
  | assumedSent
deriving Repr, DecidableEq

/-- The post-send tail of `send_dm`, entered with `sent_success = True`:
first the community-violation check (on violation: `_enter_cooldown`,
return `False`); then check 1 — is the input box now empty; then
check 2 — does the sent text appear in the page body; finally the
fallback "Could not verify, but send action completed" branch.  Each
signal argument is `none` when its evaluation raised (the code wraps
each check in `try: ... except: pass`), otherwise `some` of the observed
Boolean.  Every non-violation branch records the send and returns
`True`.  The result is the returned Boolean paired with the updated
sender state. -/
def after_send_verification (s : SenderState) (now : Int) (violation : Bool)
    (inputCleared : Option Bool) (textFound : Option Bool) : Bool × SenderState :=
  if violation then
    (false, enter_cooldown s now)
  else if inputCleared = some true then
    (true, record_message_sent s now)
  else if textFound = some true then
    (true, record_message_sent s now)
  else
    (true, record_message_sent s now)

/-- Which verification branch the tail of `send_dm` lands in when there
is no violation. -/
def send_verdict (inputCleared : Option Bool) (textFound : Option Bool) : SendVerdict :=
  if inputCleared = some true then SendVerdict.verifiedInputCleared
  else if textFound = some true then SendVerdict.verifiedTextFound
  else SendVerdict.assumedSent

/-- The multiset invariant relating the two timestamp lists: the hourly
list is a sublist of the daily list. -/
def rl_inv (rl : RateLimits) : Prop :=
  rl.hourly_messages.Sublist rl.daily_messages

/-- The invariant extended to the persisted file. -/
def state_inv (s : SenderState) : Prop :=
  rl_inv s.rate_limits ∧ ∀ d, s.disk = some d → rl_inv d

/-- States reachable from a fresh start with no persisted file by the
rate-limiter operations: permission checks (with their lazy pruning),
recording a send, entering cooldown, and re-constructing a sender from
the current file. -/
inductive Reachable : SenderState → Prop where
  | start : Reachable (initSender none)
  | check (s : SenderState) (now : Int) (restRand : Nat) :
      Reachable s → Reachable (check_rate_limits s now restRand).state
  | record (s : SenderState) (now : Int) :
      Reachable s → Reachable (record_message_sent s now)
  | cooldown (s : SenderState) (now : Int) :
      Reachable s → Reachable (enter_cooldown s now)
  | reload (s : SenderState) :
      Reachable s → Reachable (initSender s.disk)

/-- The sender state after three sends in one session (09:00, 09:10,
09:20 on day zero), starting from no persisted file. -/
def c3_sender : SenderState :=
  record_message_sent
    (record_message_sent (record_message_sent (initSender none) 32400) 33000) 33600

/-- C8: `recordSend()` appends the current timestamp to both the hourly
and the daily lists, increments `totalSent` and the session counter by
exactly one each, and the persisted file equals the updated in-memory
record when the call returns (the save is synchronous, not deferred). -/
theorem claim_C8_record_send (s : SenderState) (now : Int) :
    (record_message_sent s now).rate_limits.hourly_messages
      = s.rate_limits.hourly_messages ++ [now] ∧
    (record_message_sent s now).rate_limits.daily_messages
      = s.rate_limits.daily_messages ++ [now] ∧
    (record_message_sent s now).rate_limits.total_sent = s.rate_limits.total_sent + 1 ∧
    (record_message_sent s now).messages_sent_this_session
      = s.messages_sent_this_session + 1 ∧
    (record_message_sent s now).rate_limits.last_cooldown = s.rate_limits.last_cooldown ∧
    (record_message_sent s now).disk = some (record_message_sent s now).rate_limits :=
  ⟨rfl, rfl, rfl, rfl, rfl, rfl⟩

/-- C3 (code bug): after three sends the session counter is 3, so the
batch-rest branch denies — but it still denies two hours later (far past
the maximal 60-minute rest) and again five hours after that on the state
returned by the first check.  `messages_sent_this_session` is never
reset and no rest-start time is recorded, so within one session the
resting denial never clears, no matter how much time elapses. -/
theorem claim_C3_rest_never_clears :
    c3_sender.messages_sent_this_session = 3 ∧
    (check_rate_limits c3_sender 40800 45).allowed = false ∧
    (check_rate_limits c3_sender 40800 45).reason = Reason.resting 45 ∧
    (check_rate_limits (check_rate_limits c3_sender 40800 45).state 58800 50).allowed
      = false ∧
    (check_rate_limits (check_rate_limits c3_sender 40800 45).state 58800 50).reason
      = Reason.resting 50 := by
  decide

/-- C6 counterexample: with no violation and both verification signals
observed `false` (no signal fires), the post-send tail of `send_dm`
returns exactly the same result — `True`, with the send recorded — as
when the input-cleared signal fired: the unverified case is coerced into
success, not reported as a distinct third outcome. -/
theorem claim_C6_counterexample :
    after_send_verification (initSender none) 100 false (some false) (some false)
      = after_send_verification (initSender none) 100 false (some true) (some false) ∧
    (after_send_verification (initSender none) 100 false (some false) (some false)).1
      = true ∧
    send_verdict (some false) (some false) = SendVerdict.assumedSent := by
  decide

/-- C6 amended: the signals are combined by logical OR — if any one is
observed true the action is reported successful — but when no signal
fires the code nevertheless returns success and records the send (the
"could not verify" fallback), rather than surfacing a distinct
unverified outcome. -/
theorem claim_C6_or_and_coercion (s : SenderState) (now : Int)
    (inputCleared textFound : Option Bool) :
    (after_send_verification s now false inputCleared textFound).1 = true ∧
    (after_send_verification s now false inputCleared textFound).2
      = record_message_sent s now ∧
    (inputCleared = some true →
      send_verdict inputCleared textFound = SendVerdict.verifiedInputCleared) ∧
    (inputCleared ≠ some true → textFound = some true →
      send_verdict inputCleared textFound = SendVerdict.verifiedTextFound) ∧
    (inputCleared ≠ some true → textFound ≠ some true →
      send_verdict inputCleared textFound = SendVerdict.assumedSent) := by
  unfold after_send_verification send_verdict
  refine ⟨?_, ?_, ?_, ?_, ?_⟩
  · split <;> simp_all
  · split <;> simp_all
  · intro h; simp [h]
  · intro h1 h2; simp [h1, h2]
  · intro h1 h2; simp [h1, h2]

/-- C6 amended, witness instance: at a concrete state, with the text
signal true only, the tail reports success and the verdict names the
text signal. -/
theorem claim_C6_or_and_coercion_witness :
    (after_send_verification (initSender none) 100 false (some false) (some true)).1
      = true ∧
    send_verdict (some false) (some true) = SendVerdict.verifiedTextFound :=
  ⟨(claim_C6_or_and_coercion (initSender none) 100 (some false) (some true)).1,
   (claim_C6_or_and_coercion (initSender none) 100 (some false) (some true)).2.2.2.1
     (by decide) (by decide)⟩

/-- C7 counterexample: `checkPermission()` does not leave the state
unchanged — at a state holding one expired timestamp (a send recorded
at time 100, checked a day later at 09:00) the lazy pruning inside
`_check_rate_limits` removes it from both lists, so the returned state
differs from the input state. -/
theorem claim_C7_counterexample :
    (check_rate_limits (record_message_sent (initSender none) 100) 118800 5).state
      ≠ record_message_sent (initSender none) 100 ∧
    (check_rate_limits (record_message_sent (initSender none) 100)
        118800 5).state.rate_limits.hourly_messages = [] ∧
    (record_message_sent (initSender none) 100).rate_limits.hourly_messages = [100] := by
  decide

/-- C9 counterexample: a reachable configuration (three sends at
09:00–09:20, checked at 11:20 the same day) where the original instance
denies — batch rest, since its session counter is 3 — while a fresh
instance constructed from the very file the original saved allows: the
session counter is not part of the persisted state, so the round trip
does not preserve the allow/deny result. -/
theorem claim_C9_counterexample :
    (check_rate_limits c3_sender 40800 45).allowed = false ∧
    (check_rate_limits (initSender c3_sender.disk) 40800 45).allowed = true := by
  decide

theorem check_eq_main_of_no_cooldown (s : SenderState) (now : Int) (restRand : Nat)
    (h : cooldown_active s now = false) :
    check_rate_limits s now restRand = check_rate_limits_main s now restRand := by
  unfold check_rate_limits
  unfold cooldown_active at h
  cases hl : s.rate_limits.last_cooldown with
  | none => rfl
  | some lc =>
    rw [hl] at h
    simp only [decide_eq_false_iff_not] at h
    simp only [if_neg h]

theorem check_main_hourly_deny (s : SenderState) (now : Int) (restRand : Nat)
    (hwork : is_within_work_hours now = true)
    (h : MAX_DM_PER_HOUR ≤ hour_count s.rate_limits now) :
    (check_rate_limits_main s now restRand).allowed = false ∧
    (check_rate_limits_main s now restRand).reason = Reason.hourlyLimit := by
  unfold check_rate_limits_main
  unfold hour_count at h
  simp only [hwork, Bool.not_true, Bool.false_eq_true, if_false, if_pos h]
  constructor <;> trivial

theorem check_main_daily_deny (s : SenderState) (now : Int) (restRand : Nat)
    (hwork : is_within_work_hours now = true)
    (hh : hour_count s.rate_limits now < MAX_DM_PER_HOUR)
    (h : MAX_DM_PER_DAY ≤ day_count s.rate_limits now) :
    (check_rate_limits_main s now restRand).allowed = false ∧
    (check_rate_limits_main s now restRand).reason = Reason.dailyLimit := by
  unfold check_rate_limits_main
  unfold hour_count at hh
  unfold day_count at h
  simp only [hwork, Bool.not_true, Bool.false_eq_true, if_false,
    if_neg (Nat.not_le.mpr hh), if_pos h]
  constructor <;> trivial

theorem check_main_allow (s : SenderState) (now : Int) (restRand : Nat)
    (hwork : is_within_work_hours now = true)
    (hh : hour_count s.rate_limits now < MAX_DM_PER_HOUR)
    (hd : day_count s.rate_limits now < MAX_DM_PER_DAY)
    (hrest : ¬ rest_due s.messages_sent_this_session) :
    (check_rate_limits_main s now restRand).allowed = true ∧
    (check_rate_limits_main s now restRand).reason = Reason.ok := by
  unfold check_rate_limits_main
  unfold hour_count at hh
  unfold day_count at hd
  unfold rest_due at hrest
  simp only [hwork, Bool.not_true, Bool.false_eq_true, if_false,
    if_neg (Nat.not_le.mpr hh), if_neg (Nat.not_le.mpr hd), if_neg hrest]
  constructor <;> trivial

theorem check_main_rest_deny (s : SenderState) (now : Int) (restRand : Nat)
    (hwork : is_within_work_hours now = true)
    (hh : hour_count s.rate_limits now < MAX_DM_PER_HOUR)
    (hd : day_count s.rate_limits now < MAX_DM_PER_DAY)
    (hrest : rest_due s.messages_sent_this_session) :
    (check_rate_limits_main s now restRand).allowed = false ∧
    (check_rate_limits_main s now restRand).reason = Reason.resting restRand := by
  unfold check_rate_limits_main
  unfold hour_count at hh
  unfold day_count at hd
  unfold rest_due at hrest
  simp only [hwork, Bool.not_true, Bool.false_eq_true, if_false,
    if_neg (Nat.not_le.mpr hh), if_neg (Nat.not_le.mpr hd), if_pos hrest]
  constructor <;> trivial

/-- C1: with the cooldown inactive and the clock inside work hours,
`_check_rate_limits` denies with the hourly-limit reason whenever the
trailing-hour count has reached `MAX_DM_PER_HOUR`; denies with the
daily-limit reason whenever the trailing-hour count is under its cap but
the trailing-day count has reached `MAX_DM_PER_DAY`; and allows again as
soon as enough timestamps have aged out of both trailing windows
(provided no batch rest is due). -/
theorem claim_C1_rate_caps (s : SenderState) (now : Int) (restRand : Nat)
    (hcool : cooldown_active s now = false)
    (hwork : is_within_work_hours now = true) :
    (MAX_DM_PER_HOUR ≤ hour_count s.rate_limits now →
      (check_rate_limits s now restRand).allowed = false ∧
      (check_rate_limits s now restRand).reason = Reason.hourlyLimit) ∧
    (hour_count s.rate_limits now < MAX_DM_PER_HOUR →
      MAX_DM_PER_DAY ≤ day_count s.rate_limits now →
      (check_rate_limits s now restRand).allowed = false ∧
      (check_rate_limits s now restRand).reason = Reason.dailyLimit) ∧
    (hour_count s.rate_limits now < MAX_DM_PER_HOUR →
      day_count s.rate_limits now < MAX_DM_PER_DAY →
      ¬ rest_due s.messages_sent_this_session →
      (check_rate_limits s now restRand).allowed = true) := by
  rw [check_eq_main_of_no_cooldown s now restRand hcool]
  exact ⟨fun h => check_main_hourly_deny s now restRand hwork h,
    fun hh hd => check_main_daily_deny s now restRand hwork hh hd,
    fun hh hd hr => (check_main_allow s now restRand hwork hh hd hr).1⟩

/-- C1 witness: after `c3_sender`'s three sends, a check ten minutes
after the last send (09:30, three timestamps inside the trailing hour)
denies with the hourly reason; a check two hours later — with the three
timestamps aged out of the hourly window, a session counter of 3 made
irrelevant by overriding it to 1, and all else clear — allows. -/
theorem claim_C1_rate_caps_witness :
    (check_rate_limits c3_sender 34200 45).allowed = false ∧
    (check_rate_limits c3_sender 34200 45).reason = Reason.hourlyLimit ∧
    (check_rate_limits { c3_sender with messages_sent_this_session := 1 }
      40800 45).allowed = true :=
  ⟨((claim_C1_rate_caps c3_sender 34200 45 (by decide) (by decide)).1 (by decide)).1,
   ((claim_C1_rate_caps c3_sender 34200 45 (by decide) (by decide)).1 (by decide)).2,
   (claim_C1_rate_caps { c3_sender with messages_sent_this_session := 1 } 40800 45
      (by decide) (by decide)).2.2 (by decide) (by decide) (by decide)⟩

/-- C2: `enterCooldown` at time `t` records `last_cooldown = t`; every
check strictly before `t + 24h` is denied with the cooldown reason
carrying the remaining time, and from `t + 24h` on the cooldown no
longer denies — absent the other deny conditions the check allows. -/
theorem claim_C2_cooldown_lockout (s : SenderState) (t now : Int) (restRand : Nat) :
    (enter_cooldown s t).rate_limits.last_cooldown = some t ∧
    (now < t + COOLDOWN_HOURS * HOUR_SECONDS →
      (check_rate_limits (enter_cooldown s t) now restRand).allowed = false ∧
      (check_rate_limits (enter_cooldown s t) now restRand).reason
        = Reason.cooldown (t + COOLDOWN_HOURS * HOUR_SECONDS - now)) ∧
    (t + COOLDOWN_HOURS * HOUR_SECONDS ≤ now →
      is_within_work_hours now = true →
      hour_count (enter_cooldown s t).rate_limits now < MAX_DM_PER_HOUR →
      day_count (enter_cooldown s t).rate_limits now < MAX_DM_PER_DAY →
      ¬ rest_due (enter_cooldown s t).messages_sent_this_session →
      (check_rate_limits (enter_cooldown s t) now restRand).allowed = true) := by
  refine ⟨rfl, ?_, ?_⟩
  · intro h
    unfold check_rate_limits enter_cooldown save_rate_limits
    simp only [if_pos h]
    constructor <;> trivial
  · intro h hwork hh hd hr
    have hcool : cooldown_active (enter_cooldown s t) now = false := by
      unfold cooldown_active enter_cooldown save_rate_limits
      simp [not_lt.mpr h]
    rw [check_eq_main_of_no_cooldown _ now restRand hcool]
    exact (check_main_allow _ now restRand hwork hh hd hr).1

/-- C2 witness: cooldown entered at 08:20 (t = 30000); a check 100
seconds later is denied with the remaining time, and a check exactly 24
hours after entry (08:20 the next day, inside work hours, empty lists,
fresh session) is allowed. -/
theorem claim_C2_cooldown_lockout_witness :
    (check_rate_limits (enter_cooldown (initSender none) 30000) 30100 42).allowed
      = false ∧
    (check_rate_limits (enter_cooldown (initSender none) 30000) 30100 42).reason
      = Reason.cooldown (30000 + COOLDOWN_HOURS * HOUR_SECONDS - 30100) ∧
    (check_rate_limits (enter_cooldown (initSender none) 30000) 116400 42).allowed
      = true :=
  ⟨((claim_C2_cooldown_lockout (initSender none) 30000 30100 42).2.1 (by decide)).1,
   ((claim_C2_cooldown_lockout (initSender none) 30000 30100 42).2.1 (by decide)).2,
   (claim_C2_cooldown_lockout (initSender none) 30000 116400 42).2.2 (by decide)
     (by decide) (by decide) (by decide) (by decide)⟩

/-- The state `_check_rate_limits` leaves behind when it reaches the
pruning step: both timestamp lists filtered to their trailing windows,
everything else untouched. -/
def pruned_state (s : SenderState) (now : Int) : SenderState :=
  { s with rate_limits :=
    { s.rate_limits with
      hourly_messages :=
        s.rate_limits.hourly_messages.filter (fun ts => now - HOUR_SECONDS < ts)
      daily_messages :=
        s.rate_limits.daily_messages.filter (fun ts => now - DAY_SECONDS < ts) } }

theorem check_main_state_cases (s : SenderState) (now : Int) (restRand : Nat) :
    (check_rate_limits_main s now restRand).state = s ∨
    (check_rate_limits_main s now restRand).state = pruned_state s now := by
  unfold check_rate_limits_main pruned_state
  cases hw : is_within_work_hours now
  · simp
  · simp only [hw, Bool.not_true, Bool.false_eq_true, if_false]
    right
    split
    · rfl
    · split
      · rfl
      · split
        · rfl
        · rfl

theorem check_state_cases (s : SenderState) (now : Int) (restRand : Nat) :
    (check_rate_limits s now restRand).state = s ∨
    (check_rate_limits s now restRand).state = pruned_state s now := by
  unfold check_rate_limits
  cases hl : s.rate_limits.last_cooldown with
  | none => exact check_main_state_cases s now restRand
  | some lc =>
    by_cases hc : now < lc + COOLDOWN_HOURS * HOUR_SECONDS
    · simp only [if_pos hc]
      left
      trivial
    · simp only [if_neg hc]
      exact check_main_state_cases s now restRand

/-- C7 amended: `checkPermission` never writes the persisted file and
never changes `last_cooldown`, `total_sent` or the session counter; its
only mutation is the lazy pruning, which can only remove timestamps
(each list remains a sublist of what it was).  `recordSend` and
`enterCooldown` are the operations that write storage, and each leaves
the file equal to the in-memory record. -/
theorem claim_C7_check_mutates_only_by_pruning (s : SenderState) (now : Int)
    (restRand : Nat) :
    (check_rate_limits s now restRand).state.disk = s.disk ∧
    (check_rate_limits s now restRand).state.rate_limits.last_cooldown
      = s.rate_limits.last_cooldown ∧
    (check_rate_limits s now restRand).state.rate_limits.total_sent
      = s.rate_limits.total_sent ∧
    (check_rate_limits s now restRand).state.messages_sent_this_session
      = s.messages_sent_this_session ∧
    (check_rate_limits s now restRand).state.rate_limits.hourly_messages.Sublist
      s.rate_limits.hourly_messages ∧
    (check_rate_limits s now restRand).state.rate_limits.daily_messages.Sublist
      s.rate_limits.daily_messages ∧
    (record_message_sent s now).disk = some (record_message_sent s now).rate_limits ∧
    (enter_cooldown s now).disk = some (enter_cooldown s now).rate_limits := by
  rcases check_state_cases s now restRand with h | h <;> rw [h]
  · exact ⟨rfl, rfl, rfl, rfl, List.Sublist.refl _, List.Sublist.refl _, rfl, rfl⟩
  · exact ⟨rfl, rfl, rfl, rfl, List.filter_sublist _, List.filter_sublist _, rfl, rfl⟩

theorem check_main_agree (s₁ s₂ : SenderState) (now : Int) (restRand : Nat)
    (hrl : s₁.rate_limits = s₂.rate_limits)
    (h₁ : ¬ rest_due s₁.messages_sent_this_session)
    (h₂ : ¬ rest_due s₂.messages_sent_this_session) :
    (check_rate_limits_main s₁ now restRand).allowed
      = (check_rate_limits_main s₂ now restRand).allowed ∧
    (check_rate_limits_main s₁ now restRand).reason
      = (check_rate_limits_main s₂ now restRand).reason := by
  unfold rest_due at h₁ h₂
  simp only [check_rate_limits_main, hrl]
  cases hw : is_within_work_hours now
  · simp
  · simp only [Bool.not_true, Bool.false_eq_true, if_false]
    by_cases hh : MAX_DM_PER_HOUR ≤
        (s₂.rate_limits.hourly_messages.filter (fun ts => now - HOUR_SECONDS < ts)).length
    · simp only [if_pos hh]
      constructor <;> trivial
    · simp only [if_neg hh]
      by_cases hd : MAX_DM_PER_DAY ≤
          (s₂.rate_limits.daily_messages.filter (fun ts => now - DAY_SECONDS < ts)).length
      · simp only [if_pos hd]
        constructor <;> trivial
      · simp only [if_neg hd, if_neg h₁, if_neg h₂]
        constructor <;> trivial

theorem check_agree_of_eq_rl (s₁ s₂ : SenderState) (now : Int) (restRand : Nat)
    (hrl : s₁.rate_limits = s₂.rate_limits)
    (h₁ : ¬ rest_due s₁.messages_sent_this_session)
    (h₂ : ¬ rest_due s₂.messages_sent_this_session) :
    (check_rate_limits s₁ now restRand).allowed
      = (check_rate_limits s₂ now restRand).allowed ∧
    (check_rate_limits s₁ now restRand).reason
      = (check_rate_limits s₂ now restRand).reason := by
  unfold check_rate_limits
  rw [hrl]
  cases hl : s₂.rate_limits.last_cooldown with
  | none => exact check_main_agree s₁ s₂ now restRand hrl h₁ h₂
  | some lc =>
    by_cases hc : now < lc + COOLDOWN_HOURS * HOUR_SECONDS
    · simp only [if_pos hc]
      constructor <;> trivial
    · simp only [if_neg hc]
      exact check_main_agree s₁ s₂ now restRand hrl h₁ h₂

/-- C9 amended: saving and reloading into a fresh sender reproduces the
persisted record exactly, and `checkPermission` gives the same allow/
deny result and reason on both instances whenever the original's
session counter is not at a positive multiple of the batch size — the
session counter is process-local and resets to 0 on reload, so only the
batch-rest denial can differ between the two instances. -/
theorem claim_C9_reload_roundtrip (s : SenderState) (now : Int) (restRand : Nat)
    (h : ¬ rest_due s.messages_sent_this_session) :
    (initSender (save_rate_limits s).disk).rate_limits = s.rate_limits ∧
    (check_rate_limits (initSender (save_rate_limits s).disk) now restRand).allowed
      = (check_rate_limits s now restRand).allowed ∧
    (check_rate_limits (initSender (save_rate_limits s).disk) now restRand).reason
      = (check_rate_limits s now restRand).reason := by
  refine ⟨rfl, ?_⟩
  have h0 : ¬ rest_due 0 := by decide
  exact check_agree_of_eq_rl (initSender (save_rate_limits s).disk) s now restRand rfl h0 h

/-- C9 amended, witness instance: after one send at 09:00 (session
counter 1, not a rest point) the original and a reloaded fresh instance
agree on the check at 09:30. -/
theorem claim_C9_reload_roundtrip_witness :
    (check_rate_limits
        (initSender (save_rate_limits (record_message_sent (initSender none) 32400)).disk)
        34200 7).allowed
      = (check_rate_limits (record_message_sent (initSender none) 32400) 34200 7).allowed :=
  (claim_C9_reload_roundtrip (record_message_sent (initSender none) 32400) 34200 7
    (by decide)).2.1

/-- C4: the candidate loop tries candidates strictly in list order; at
the first candidate resolving to a visible element it performs the DOM
action exactly once (on that candidate only) and stops with that
candidate's index — no later candidate is even attempted. -/
theorem claim_C4_first_visible_wins {σ : Type} (resolve : σ → Resolve) (cs : List σ)
    (i : Nat) (hi : i < cs.length)
    (hfound : resolve (cs.get ⟨i, hi⟩) = Resolve.found true)
    (hbefore : ∀ j (hj : j < i),
      resolve (cs.get ⟨j, Nat.lt_trans hj hi⟩) ≠ Resolve.found true) :
    execute resolve cs
      = { attempted := cs.take (i + 1), actions := [cs.get ⟨i, hi⟩], matched := some i } := by
  induction cs generalizing i with
  | nil => exact absurd hi (Nat.not_lt_zero i)
  | cons c rest ih =>
    cases i with
    | zero =>
      have hc : resolve c = Resolve.found true := hfound
      simp [execute, hc]
    | succ n =>
      have hc : resolve c ≠ Resolve.found true := hbefore 0 (Nat.succ_pos n)
      have hn : n < rest.length := Nat.lt_of_succ_lt_succ hi
      have hfound' : resolve (rest.get ⟨n, hn⟩) = Resolve.found true := hfound
      have hbefore' : ∀ j (hj : j < n),
          resolve (rest.get ⟨j, Nat.lt_trans hj hn⟩) ≠ Resolve.found true :=
        fun j hj => hbefore (j + 1) (Nat.succ_lt_succ hj)
      have hr := ih n hn hfound' hbefore'
      cases hres : resolve c with
      | found v =>
        cases v with
        | true => exact absurd hres hc
        | false => simp [execute, hres, hr]
      | thrown => simp [execute, hres, hr]
      | nullHandle => simp [execute, hres, hr]

/-- Resolution behaviour where only the second of three candidates
resolves to a visible element: the first raises, the third would be
visible but must never be tried. -/
def resolveOnlySecond : Nat → Resolve
  | 0 => Resolve.thrown
  | 1 => Resolve.found true
  | _ => Resolve.found true

/-- C4 witness: with candidates `[A, B, C] = [0, 1, 2]` where `A`
throws and `B` is the first visible match, the loop clicks exactly `B`,
reports index 1, and never attempts `C`. -/
theorem claim_C4_first_visible_wins_witness :
    execute resolveOnlySecond [0, 1, 2]
      = { attempted := [0, 1], actions := [1], matched := some 1 } :=
  claim_C4_first_visible_wins resolveOnlySecond [0, 1, 2] 1 (by decide) (by decide)
    (by decide)

/-- C5: when every candidate fails (raises, times out, yields a falsy
handle, or is invisible) the loop swallows each failure, attempts every
candidate, performs no DOM action, and ends with the structured
no-match failure (`succeeded = false`, no matched index) — it is a
total function, never propagating an exception; and the outer
`try/except` boundary of `send_dm` converts any raised body into the
plain `False` return, so no raw engine exception reaches the caller. -/
theorem claim_C5_total_failure {σ : Type} (resolve : σ → Resolve) (cs : List σ)
    (h : ∀ c ∈ cs, resolve c ≠ Resolve.found true) :
    (execute resolve cs).succeeded = false ∧
    (execute resolve cs).matched = none ∧
    (execute resolve cs).actions = [] ∧
    (execute resolve cs).attempted = cs ∧
    (∀ e : String, send_dm_guard (Except.error e) = false) ∧
    (∀ b : Bool, send_dm_guard (Except.ok b) = b) := by
  have key : ∀ l : List σ, (∀ c ∈ l, resolve c ≠ Resolve.found true) →
      execute resolve l = { attempted := l, actions := [], matched := none } := by
    intro l
    induction l with
    | nil => intro _; rfl
    | cons c rest ih =>
      intro hl
      have hc : resolve c ≠ Resolve.found true := hl c (List.mem_cons_self c rest)
      have hr := ih (fun x hx => hl x (List.mem_cons_of_mem c hx))
      cases hres : resolve c with
      | found v =>
        cases v with
        | true => exact absurd hres hc
        | false => simp [execute, hres, hr]
      | thrown => simp [execute, hres, hr]
      | nullHandle => simp [execute, hres, hr]
  rw [key cs h]
  exact ⟨rfl, rfl, rfl, rfl, fun e => rfl, fun b => rfl⟩

/-- Resolution behaviour where no candidate ever yields a visible
element: one raises, one returns a falsy handle, one is invisible. -/
def resolveAllFail : Nat → Resolve
  | 0 => Resolve.thrown
  | 1 => Resolve.nullHandle
  | _ => Resolve.found false

/-- C5 witness: on three candidates that all fail, the loop attempts
all of them, clicks nothing, and returns the no-match failure; a raised
body is converted to `False` by the `send_dm` boundary. -/
theorem claim_C5_total_failure_witness :
    (execute resolveAllFail [0, 1, 2]).succeeded = false ∧
    (execute resolveAllFail [0, 1, 2]).actions = [] ∧
    send_dm_guard (Except.error "TimeoutError") = false :=
  ⟨(claim_C5_total_failure resolveAllFail [0, 1, 2] (by decide)).1,
   (claim_C5_total_failure resolveAllFail [0, 1, 2] (by decide)).2.2.1,
   (claim_C5_total_failure resolveAllFail [0, 1, 2] (by decide)).2.2.2.2.1
     "TimeoutError"⟩

theorem sublist_filter_of_imp {l₁ l₂ : List Int} (h : l₁.Sublist l₂)
    {p q : Int → Bool} (hpq : ∀ a, p a = true → q a = true) :
    (l₁.filter p).Sublist (l₂.filter q) := by
  induction h with
  | slnil => simp
  | cons a h ih =>
    rw [List.filter_cons]
    split
    · exact ih.cons a
    · exact ih
  | cons₂ a h ih =>
    rw [List.filter_cons, List.filter_cons]
    by_cases hp : p a = true
    · rw [if_pos hp, if_pos (hpq a hp)]
      exact ih.cons₂ a
    · rw [if_neg hp]
      split
      · exact ih.cons a
      · exact ih

theorem hour_imp_day_pred (now a : Int) :
    decide (now - HOUR_SECONDS < a) = true → decide (now - DAY_SECONDS < a) = true := by
  simp only [decide_eq_true_eq]
  unfold HOUR_SECONDS DAY_SECONDS
  omega

theorem rl_inv_pruned (s : SenderState) (now : Int) (h : rl_inv s.rate_limits) :
    rl_inv (pruned_state s now).rate_limits := by
  unfold rl_inv pruned_state at *
  exact sublist_filter_of_imp h (fun a => hour_imp_day_pred now a)

theorem state_inv_check (s : SenderState) (now : Int) (restRand : Nat)
    (h : state_inv s) : state_inv (check_rate_limits s now restRand).state := by
  rcases check_state_cases s now restRand with hc | hc <;> rw [hc]
  · exact h
  · exact ⟨rl_inv_pruned s now h.1, h.2⟩

theorem state_inv_record (s : SenderState) (now : Int)
    (h : state_inv s) : state_inv (record_message_sent s now) := by
  have hlists : rl_inv (record_message_sent s now).rate_limits := by
    unfold rl_inv record_message_sent save_rate_limits at *
    exact List.Sublist.append h.1 (List.Sublist.refl [now])
  refine ⟨hlists, ?_⟩
  intro d hd
  have : d = (record_message_sent s now).rate_limits := by
    unfold record_message_sent save_rate_limits at hd
    exact (Option.some_inj.mp hd).symm
  rw [this]
  exact hlists

theorem state_inv_cooldown (s : SenderState) (now : Int)
    (h : state_inv s) : state_inv (enter_cooldown s now) := by
  have hlists : rl_inv (enter_cooldown s now).rate_limits := h.1
  refine ⟨hlists, ?_⟩
  intro d hd
  have : d = (enter_cooldown s now).rate_limits := by
    unfold enter_cooldown save_rate_limits at hd
    exact (Option.some_inj.mp hd).symm
  rw [this]
  exact hlists

theorem state_inv_reload (s : SenderState) (h : state_inv s) :
    state_inv (initSender s.disk) := by
  cases hd : s.disk with
  | none => exact ⟨List.Sublist.refl _, by intro d hdd; cases hdd⟩
  | some r =>
    have hr : rl_inv r := h.2 r hd
    refine ⟨hr, ?_⟩
    intro d hdd
    have : d = r := (Option.some_inj.mp hdd).symm
    rw [this]
    exact hr

theorem reachable_state_inv (s : SenderState) (h : Reachable s) : state_inv s := by
  induction h with
  | start => exact ⟨List.Sublist.refl _, by intro d hd; cases hd⟩
  | check s now restRand _ ih => exact state_inv_check s now restRand ih
  | record s now _ ih => exact state_inv_record s now ih
  | cooldown s now _ ih => exact state_inv_cooldown s now ih
  | reload s _ ih => exact state_inv_reload s ih

/-- C10: in every state reachable from the empty initial state by the
rate-limiter operations (initial load with no file, permission checks
with their lazy pruning, recording sends, entering cooldown, and
reloading from the saved file), every timestamp in the hourly list also
occurs in the daily list, and consequently the trailing-hour count
never exceeds the trailing-day count at any clock value. -/
theorem claim_C10_hourly_within_daily (s : SenderState) (h : Reachable s) :
    (∀ ts ∈ s.rate_limits.hourly_messages, ts ∈ s.rate_limits.daily_messages) ∧
    ∀ now : Int, hour_count s.rate_limits now ≤ day_count s.rate_limits now := by
  have hinv : rl_inv s.rate_limits := (reachable_state_inv s h).1
  unfold rl_inv at hinv
  constructor
  · intro ts hts
    exact hinv.subset hts
  · intro now
    unfold hour_count day_count
    exact (sublist_filter_of_imp hinv (fun a => hour_imp_day_pred now a)).length_le

/-- C10 witness: in the reachable state obtained by one recorded send at
time 100, the timestamp occurs in the daily list and the trailing-hour
count at time 200 is bounded by the trailing-day count. -/
theorem claim_C10_hourly_within_daily_witness :
    (100 : Int) ∈ (record_message_sent (initSender none) 100).rate_limits.daily_messages ∧
    hour_count (record_message_sent (initSender none) 100).rate_limits 200
      ≤ day_count (record_message_sent (initSender none) 100).rate_limits 200 :=
  ⟨(claim_C10_hourly_within_daily (record_message_sent (initSender none) 100)
      (Reachable.record (initSender none) 100 Reachable.start)).1 100 (by decide),
   (claim_C10_hourly_within_daily (record_message_sent (initSender none) 100)
      (Reachable.record (initSender none) 100 Reachable.start)).2 200⟩
